import Mathlib

/-!
Verification of the `utils_sandra_otubushin` module: a shallow embedding of
its module-level constants, derived statistics, byline formatter, accessors,
narrator and self-check, with theorems settling the specification's claims.

Numeric modelling: the Python `statistics` module computes `mean` and the
sum of squared deviations in exact rational arithmetic before a final
conversion, so scores are embedded as `ℚ`; the standard deviation is the
real square root of the exact sample variance, and two-decimal `%.2f`
formatting is modelled as rounding to integer hundredths.
-/

set_option maxRecDepth 8000

namespace Utils

/-- Models Python str.startswith on character lists: true when the second
list occurs at the head of the first. -/
def startsWithL : List Char → List Char → Bool
  | _, [] => true
  | [], _ :: _ => false
  | a :: s, b :: p => a == b && startsWithL s p

/-- Models the Python substring test (pat in s) on character lists. -/
def hasSubL : List Char → List Char → Bool
  | [], p => startsWithL [] p
  | a :: s, p => startsWithL (a :: s) p || hasSubL s p

/-- Models the Python substring test (pat in s) on strings. -/
def strHasSub (s pat : String) : Bool :=
  hasSubL s.data pat.data

/-- Models the Python call str.strip applied with the newline character:
drops newline characters from both ends of the string. -/
def stripNL (s : String) : String :=
  ⟨((s.data.dropWhile (fun c => c == '\n')).reverse.dropWhile (fun c => c == '\n')).reverse⟩

/-- Models Python str on booleans (True / False). -/
def boolStr (b : Bool) : String :=
  if b then "True" else "False"

/-- Models CPython float repr for the nonnegative one-decimal values stored
in this module: one digit after the decimal point, so repr of 5.0 is the
three-character string 5.0. -/
def score_repr (q : ℚ) : String :=
  toString ((q * 10).num / 10) ++ "." ++ toString ((q * 10).num % 10)

/-- Models the Python list repr for lists of strings: brackets, items
separated by comma and space, each item in single quotes. -/
def strListRepr (xs : List String) : String :=
  "[" ++ String.intercalate ", " (xs.map (fun s => "\x27" ++ s ++ "\x27")) ++ "]"

/-- Models the Python list repr for the score list. -/
def scoreListRepr (xs : List ℚ) : String :=
  "[" ++ String.intercalate ", " (xs.map score_repr) ++ "]"

/-- Renders an integer number of hundredths as a two-decimal string, the
result of Python %.2f formatting after rounding (nonnegative values). -/
def fmt2 (cents : ℤ) : String :=
  toString (cents / 100) ++ "." ++ (if cents % 100 < 10 then "0" else "") ++ toString (cents % 100)

/-- Models the Python builtin min over a nonempty list; the empty case is
unreachable in the source (min of an empty sequence raises ValueError) and
returns the junk value 0. -/
def listMin : List ℚ → ℚ
  | [] => 0
  | x :: xs => xs.foldl min x

/-- Models the Python builtin max over a nonempty list; empty case as in
listMin. -/
def listMax : List ℚ → ℚ
  | [] => 0
  | x :: xs => xs.foldl max x

/-- Models statistics.mean, which computes the exact rational mean (the
empty case raises StatisticsError in Python and here returns the junk
value 0, unreachable in the source). -/
def meanQ (xs : List ℚ) : ℚ :=
  xs.sum / xs.length

/-- Sum of squared deviations from the mean, computed exactly as in the
statistics module. -/
def sumSqDev (xs : List ℚ) : ℚ :=
  (xs.map (fun x => (x - meanQ xs) ^ 2)).sum

/-- The unbiased sample variance (denominator n - 1) in exact rational
arithmetic, as statistics.stdev computes it before the square root. -/
def sampleVariance (xs : List ℚ) : ℚ :=
  sumSqDev xs / ((xs.length : ℚ) - 1)

/-- The value statistics.stdev returns when it is defined: the real square
root of the exact sample variance. -/
noncomputable def stdevOf (xs : List ℚ) : ℝ :=
  Real.sqrt ((sampleVariance xs : ℚ) : ℝ)

/-- Models statistics.stdev including its failure mode: with fewer than two
data points CPython raises StatisticsError (from the n < 2 guard, or from
mean on an empty sequence), otherwise it returns the square root of the
sample variance. -/
noncomputable def stdevE (xs : List ℚ) : Except String ℝ :=
  if xs.length < 2 then Except.error "StatisticsError" else Except.ok (stdevOf xs)

/-! Module-level profile constants, translated from the source. -/

def author : String := "Sandra Otubushin"

def organization : String := "Sandra Analytics"

def motto : String := "Excellence. Stewardship. Impact."

def location : String := "Dallas, TX"

def is_accepting_clients : Bool := true

def offers_remote_workshops : Bool := true

def is_hiring : Bool := false

def current_year : ℤ := 2025

def year_started : ℤ := 2020

def number_of_employees : ℤ := 25

def services : List String := ["Data Analysis", "Machine Learning", "Business Intelligence"]

def satisfaction_scores : List ℚ := [4.8, 4.6, 4.9, 5.0, 4.7]

def office_locations : List String := ["Dallas, TX", "Houston, TX", "Austin, TX", "Chicago, IL"]

/-- The years-active computation applied to arbitrary year fields. -/
def yearsActiveOf (cy ys : ℤ) : ℤ := cy - ys

/-! Derived metrics, translated from the source. -/

def years_active : ℤ := yearsActiveOf current_year year_started

def count_of_services : ℕ := services.length

def count_of_scores : ℕ := satisfaction_scores.length

def count_of_locations : ℕ := office_locations.length

def min_score : ℚ := listMin satisfaction_scores

def max_score : ℚ := listMax satisfaction_scores

def mean_score : ℚ := meanQ satisfaction_scores

noncomputable def stdev_score : ℝ := stdevOf satisfaction_scores

/-- The integer hundredths produced by %.2f rounding of the mean. -/
def meanCents : ℤ := round ((100 : ℚ) * mean_score)

/-- The integer hundredths produced by %.2f rounding of the standard
deviation. -/
noncomputable def stdevCents : ℤ := round ((100 : ℝ) * stdev_score)

/-- The byline f-string of the source, translated line by line with the
standard-deviation hundredths abstracted as a parameter (the module byline
instantiates it with stdevCents); the surrounding newlines of the template
are stripped exactly as the source strips them. -/
def bylinePre (sdCents : ℤ) : String :=
  stripNL ("\n"
    ++ "**********************************************************\n"
    ++ organization ++ " — Project Header\n"
    ++ "**********************************************************\n"
    ++ "Author:                     " ++ author ++ "\n"
    ++ "Motto:                      " ++ motto ++ "\n"
    ++ "Primary Location:           " ++ location ++ "\n"
    ++ "Years Active:               " ++ toString years_active ++ " (since " ++ toString year_started ++ ")\n"
    ++ "Accepting New Clients?:     " ++ boolStr is_accepting_clients ++ "\n"
    ++ "Currently Hiring?:          " ++ boolStr is_hiring ++ "\n"
    ++ "Remote Workshops?:          " ++ boolStr offers_remote_workshops ++ "\n"
    ++ "Employees:                  " ++ toString number_of_employees ++ "\n"
    ++ "Office Locations (" ++ toString count_of_locations ++ "):  " ++ strListRepr office_locations ++ "\n"
    ++ "Services (" ++ toString count_of_services ++ "):           " ++ strListRepr services ++ "\n"
    ++ "Client Satisfaction Scores (" ++ toString count_of_scores ++ "): " ++ scoreListRepr satisfaction_scores ++ "\n"
    ++ "Minimum Satisfaction Score: " ++ score_repr min_score ++ "\n"
    ++ "Maximum Satisfaction Score: " ++ score_repr max_score ++ "\n"
    ++ "Mean Satisfaction Score:    " ++ fmt2 meanCents ++ "\n"
    ++ "     Standard Deviation:    " ++ fmt2 sdCents ++ "\n"
    ++ "**********************************************************\n")

/-- The concrete value of the module byline, spelled out as one literal for
direct evaluation (proved equal to the byline below). -/
def bylineStr : String := "**********************************************************\nSandra Analytics — Project Header\n**********************************************************\nAuthor:                     Sandra Otubushin\nMotto:                      Excellence. Stewardship. Impact.\nPrimary Location:           Dallas, TX\nYears Active:               5 (since 2020)\nAccepting New Clients?:     True\nCurrently Hiring?:          False\nRemote Workshops?:          True\nEmployees:                  25\nOffice Locations (4):  [\x27Dallas, TX\x27, \x27Houston, TX\x27, \x27Austin, TX\x27, \x27Chicago, IL\x27]\nServices (3):           [\x27Data Analysis\x27, \x27Machine Learning\x27, \x27Business Intelligence\x27]\nClient Satisfaction Scores (5): [4.8, 4.6, 4.9, 5.0, 4.7]\nMinimum Satisfaction Score: 4.6\nMaximum Satisfaction Score: 5.0\nMean Satisfaction Score:    4.80\n     Standard Deviation:    0.16\n**********************************************************"

/-- The module byline constant. -/
noncomputable def byline : String := bylinePre stdevCents

/-- Accessor kept for compatibility in the source; returns the module
byline. -/
noncomputable def compose_byline : String := byline

/-- The main accessor; returns the module byline. -/
noncomputable def get_byline : String := byline

/-! The narrator. Python's KeyboardInterrupt is not a subclass of
Exception, so an except-Exception handler does not catch it; the model
distinguishes the two exception classes that matter here. -/

/-- Exception classes relevant to the source: the user's cancellation
signal (KeyboardInterrupt, not a subclass of Exception) and every ordinary
error (of class Exception). -/
inductive PyExc
  | keyboardInterrupt
  | exception
  deriving DecidableEq

/-- Behaviour of the pyttsx3 engine calls inside the try block of
read_byline_aloud: they complete, or one of them raises. -/
inductive EngineRun
  | completes
  | raises (e : PyExc)
  deriving DecidableEq

/-- Outcome of calling a Python procedure that returns None: it returns
normally (having logged a warning or not), or an exception escapes it. -/
inductive CallResult
  | returned (warned : Bool)
  | raised (e : PyExc)
  deriving DecidableEq

/-- Models read_byline_aloud: when tts is unavailable it logs a warning and
returns; otherwise the engine runs and the except-Exception handler catches
only exceptions of class Exception (logging a warning), so a
KeyboardInterrupt raised during narration escapes the function. -/
def read_byline_aloud : Bool → EngineRun → CallResult
  | false, _ => CallResult.returned true
  | true, EngineRun.completes => CallResult.returned false
  | true, EngineRun.raises PyExc.exception => CallResult.returned true
  | true, EngineRun.raises PyExc.keyboardInterrupt => CallResult.raised PyExc.keyboardInterrupt

/-- Models the try block in main around the narration call: an
except-KeyboardInterrupt arm logs at info level and an except-Exception arm
logs a warning; either way main continues normally. -/
def main_speech_guard : CallResult → CallResult
  | CallResult.raised PyExc.keyboardInterrupt => CallResult.returned false
  | CallResult.raised PyExc.exception => CallResult.returned true
  | r => r

/-! The self-check. It reads module globals; the embedding passes the
globals it could read as an explicit state, so that which of them the body
actually consults is visible. -/

/-- The module globals available to self_check: years fields, the three
stored counts, the three lists, the derived score statistics, the byline
and the identity strings. -/
structure ModuleState where
  ya : ℤ
  cy : ℤ
  ys : ℤ
  csv : ℕ
  csc : ℕ
  clo : ℕ
  svc : List String
  loc : List String
  scs : List ℚ
  mn : ℚ
  me : ℚ
  mx : ℚ
  b : String
  org : String
  auth : String
  deriving DecidableEq

/-- Models the body of self_check, assertion by assertion: years-active
arithmetic, the services count, the locations count, min ≤ mean ≤ max, and
the byline containing organization and author. It returns true when no
assertion fails; the stored scores count (csc) and the score list (scs) are
in scope but the body never consults them. -/
def self_check_run (st : ModuleState) : Bool :=
  (st.ya == st.cy - st.ys) &&
  (st.csv == st.svc.length) &&
  (st.clo == st.loc.length) &&
  (decide (st.mn ≤ st.me) && decide (st.me ≤ st.mx)) &&
  (strHasSub st.b st.org && strHasSub st.b st.auth)

/-- Modelled from the spec wording, for comparison with self_check_run: the
checks claim C2 says self_check performs, where every stored list count
(services, locations and scores) is asserted against its list length. -/
def self_check_claimed (st : ModuleState) : Bool :=
  (st.ya == st.cy - st.ys) &&
  (st.csv == st.svc.length) &&
  (st.clo == st.loc.length) &&
  (st.csc == st.scs.length) &&
  (decide (st.mn ≤ st.me) && decide (st.me ≤ st.mx)) &&
  (strHasSub st.b st.org && strHasSub st.b st.auth)

/-- The actual module state: every field holds the module-level constant of
the source. -/
noncomputable def theState : ModuleState :=
  ⟨years_active, current_year, year_started, count_of_services, count_of_scores,
    count_of_locations, services, office_locations, satisfaction_scores,
    min_score, mean_score, max_score, byline, organization, author⟩

/-- A state identical to the module state except that the stored scores
count is 0 (the byline field carries the concrete byline value): it
separates the checks self_check performs from the checks claim C2 lists. -/
def cexState : ModuleState :=
  ⟨5, 2025, 2020, 3, 0, 4, services, office_locations, satisfaction_scores,
    4.6, 24 / 5, 5.0, bylineStr, organization, author⟩

/-! Numeric facts about the stored scores. -/

lemma mean_score_eq : mean_score = 24 / 5 := by
  simp only [mean_score, meanQ, satisfaction_scores, List.sum_cons, List.sum_nil,
    List.length_cons, List.length_nil]
  norm_num

lemma sampleVariance_scores : sampleVariance satisfaction_scores = 1 / 40 := by
  simp only [sampleVariance, sumSqDev, meanQ, satisfaction_scores, List.map_cons, List.map_nil,
    List.sum_cons, List.sum_nil, List.length_cons, List.length_nil]
  norm_num

lemma min_score_eq : min_score = 4.6 := by
  simp only [min_score, listMin, satisfaction_scores, List.foldl_cons, List.foldl_nil]
  norm_num [min_def]

lemma max_score_eq : max_score = 5.0 := by
  simp only [max_score, listMax, satisfaction_scores, List.foldl_cons, List.foldl_nil]
  norm_num [max_def]

lemma meanCents_eq : meanCents = 480 := by
  have h : (100 : ℚ) * mean_score + 1 / 2 = 961 / 2 := by
    rw [mean_score_eq]
    norm_num
  simp only [meanCents, round_eq, h]
  rw [Int.floor_eq_iff]
  constructor
  · norm_num
  · norm_num

lemma stdev_score_eq : stdev_score = Real.sqrt ((1 : ℝ) / 40) := by
  unfold stdev_score stdevOf
  rw [sampleVariance_scores]
  norm_num

lemma stdevCents_eq : stdevCents = 16 := by
  have h0 : (0 : ℝ) ≤ 1 / 40 := by norm_num
  have hs0 : 0 ≤ Real.sqrt ((1 : ℝ) / 40) := Real.sqrt_nonneg _
  have hs2 : Real.sqrt ((1 : ℝ) / 40) ^ 2 = 1 / 40 := Real.sq_sqrt h0
  have hlow : (15.5 : ℝ) ≤ 100 * Real.sqrt ((1 : ℝ) / 40) := by nlinarith [hs2, hs0]
  have hhigh : 100 * Real.sqrt ((1 : ℝ) / 40) < 16.5 := by nlinarith [hs2, hs0]
  unfold stdevCents
  rw [stdev_score_eq, round_eq, Int.floor_eq_iff]
  constructor
  · push_cast
    linarith
  · push_cast
    linarith

/-! Evaluation of the byline to its concrete string. -/

lemma score_repr_48 : score_repr (4.8 : ℚ) = "4.8" := by
  have h : (4.8 : ℚ) * 10 = 48 := by norm_num
  simp only [score_repr, h, Rat.num_ofNat]
  decide

lemma score_repr_46 : score_repr (4.6 : ℚ) = "4.6" := by
  have h : (4.6 : ℚ) * 10 = 46 := by norm_num
  simp only [score_repr, h, Rat.num_ofNat]
  decide

lemma score_repr_49 : score_repr (4.9 : ℚ) = "4.9" := by
  have h : (4.9 : ℚ) * 10 = 49 := by norm_num
  simp only [score_repr, h, Rat.num_ofNat]
  decide

lemma score_repr_50 : score_repr (5.0 : ℚ) = "5.0" := by
  have h : (5.0 : ℚ) * 10 = 50 := by norm_num
  simp only [score_repr, h, Rat.num_ofNat]
  decide

lemma score_repr_47 : score_repr (4.7 : ℚ) = "4.7" := by
  have h : (4.7 : ℚ) * 10 = 47 := by norm_num
  simp only [score_repr, h, Rat.num_ofNat]
  decide

lemma bylinePre16_eq : bylinePre 16 = bylineStr := by
  simp only [bylinePre, scoreListRepr, satisfaction_scores, List.map_cons, List.map_nil,
    score_repr_48, score_repr_46, score_repr_49, score_repr_50, score_repr_47,
    min_score_eq, max_score_eq, meanCents_eq]
  decide

lemma byline_eval : byline = bylineStr := by
  have h : byline = bylinePre 16 := by
    unfold byline
    rw [stdevCents_eq]
  rw [h, bylinePre16_eq]

/-! Order lemmas for minimum, maximum and mean of a score list. -/

lemma foldl_min_le_init (l : List ℚ) : ∀ a : ℚ, l.foldl min a ≤ a := by
  induction l with
  | nil => intro a; simp
  | cons b t ih => intro a; exact le_trans (ih (min a b)) (min_le_left a b)

lemma foldl_min_le_mem (l : List ℚ) : ∀ a y, y ∈ l → l.foldl min a ≤ y := by
  induction l with
  | nil => intro a y hy; cases hy
  | cons b t ih =>
    intro a y hy
    rcases List.mem_cons.mp hy with h | h
    · subst h
      exact le_trans (foldl_min_le_init t (min a y)) (min_le_right a y)
    · exact ih (min a b) y h

lemma listMin_le_mem (xs : List ℚ) : ∀ y ∈ xs, listMin xs ≤ y := by
  cases xs with
  | nil => intro y hy; cases hy
  | cons x t =>
    intro y hy
    rcases List.mem_cons.mp hy with h | h
    · subst h
      exact foldl_min_le_init t y
    · exact foldl_min_le_mem t x y h

lemma init_le_foldl_max (l : List ℚ) : ∀ a : ℚ, a ≤ l.foldl max a := by
  induction l with
  | nil => intro a; simp
  | cons b t ih => intro a; exact le_trans (le_max_left a b) (ih (max a b))

lemma mem_le_foldl_max (l : List ℚ) : ∀ a y, y ∈ l → y ≤ l.foldl max a := by
  induction l with
  | nil => intro a y hy; cases hy
  | cons b t ih =>
    intro a y hy
    rcases List.mem_cons.mp hy with h | h
    · subst h
      exact le_trans (le_max_right a y) (init_le_foldl_max t (max a y))
    · exact ih (max a b) y h

lemma mem_le_listMax (xs : List ℚ) : ∀ y ∈ xs, y ≤ listMax xs := by
  cases xs with
  | nil => intro y hy; cases hy
  | cons x t =>
    intro y hy
    rcases List.mem_cons.mp hy with h | h
    · subst h
      exact init_le_foldl_max t y
    · exact mem_le_foldl_max t x y h

lemma mul_length_le_sum (c : ℚ) (xs : List ℚ) (h : ∀ y ∈ xs, c ≤ y) :
    c * xs.length ≤ xs.sum := by
  induction xs with
  | nil => simp
  | cons x t ih =>
    have hx := h x (List.mem_cons_self x t)
    have ht := ih (fun y hy => h y (List.mem_cons_of_mem x hy))
    have hexp : c * (((x :: t).length : ℚ)) = c * (t.length : ℚ) + c := by
      push_cast [List.length_cons]
      ring
    rw [hexp, List.sum_cons]
    linarith

lemma sum_le_mul_length (c : ℚ) (xs : List ℚ) (h : ∀ y ∈ xs, y ≤ c) :
    xs.sum ≤ c * xs.length := by
  induction xs with
  | nil => simp
  | cons x t ih =>
    have hx := h x (List.mem_cons_self x t)
    have ht := ih (fun y hy => h y (List.mem_cons_of_mem x hy))
    have hexp : c * (((x :: t).length : ℚ)) = c * (t.length : ℚ) + c := by
      push_cast [List.length_cons]
      ring
    rw [hexp, List.sum_cons]
    linarith

/-! Helper facts about the self-check. -/

lemma self_check_run_iff (st : ModuleState) : self_check_run st = true ↔
    (st.ya = st.cy - st.ys ∧ st.csv = st.svc.length ∧ st.clo = st.loc.length ∧
      st.mn ≤ st.me ∧ st.me ≤ st.mx ∧
      strHasSub st.b st.org = true ∧ strHasSub st.b st.auth = true) := by
  simp only [self_check_run, Bool.and_eq_true, decide_eq_true_eq, beq_iff_eq]
  tauto

lemma self_check_run_theState : self_check_run theState = true := by
  rw [self_check_run_iff]
  simp only [theState]
  refine ⟨by decide, rfl, rfl, ?_, ?_, ?_, ?_⟩
  · rw [min_score_eq, mean_score_eq]
    norm_num
  · rw [mean_score_eq, max_score_eq]
    norm_num
  · rw [byline_eval]
    decide
  · rw [byline_eval]
    decide

/-! Claim theorems. -/

/-- C1 counterexample: the claim says the sample standard deviation of the
stored scores renders to two decimal places as 0.15; in fact the stdev is
sqrt(1/40) which rounds to 16 hundredths, and the string 0.15 occurs
nowhere in the formatted block. -/
theorem C1_counterexample : stdevCents ≠ 15 ∧ strHasSub byline "0.15" = false := by
  constructor
  · rw [stdevCents_eq]
    decide
  · rw [byline_eval]
    decide

/-- C1 amended: for the stored score list, count = 5, min = 4.6, max = 5.0,
the mean rendered to two decimals is 4.80 and the sample standard deviation
rendered to two decimals is 0.16, and the Mean Satisfaction Score and
Standard Deviation lines of the block show exactly these values. -/
theorem C1_amended_stats : count_of_scores = 5 ∧ min_score = 4.6 ∧ max_score = 5.0 ∧
    meanCents = 480 ∧ stdevCents = 16 ∧
    strHasSub byline "Mean Satisfaction Score:    4.80" = true ∧
    strHasSub byline "     Standard Deviation:    0.16" = true := by
  refine ⟨by decide, min_score_eq, max_score_eq, meanCents_eq, stdevCents_eq, ?_, ?_⟩
  · rw [byline_eval]
    decide
  · rw [byline_eval]
    decide

/-- C2 counterexample: the claim says self_check asserts that each stored
list count matches the length of its corresponding list and fails exactly
when one of its listed checks fails; on a state whose stored scores count
(0) differs from the score-list length (5) the body of self_check still
succeeds, because it never asserts the scores count. -/
theorem C2_counterexample : self_check_run cexState = true ∧
    self_check_claimed cexState = false ∧ cexState.csc ≠ cexState.scs.length := by
  refine ⟨?_, by decide, by decide⟩
  rw [self_check_run_iff]
  refine ⟨by decide, by decide, by decide, ?_, ?_, by decide, by decide⟩
  · show (4.6 : ℚ) ≤ 24 / 5
    norm_num
  · show (24 / 5 : ℚ) ≤ 5.0
    norm_num

/-- C2 amended: self_check asserts the years-active arithmetic, that the
services and office-locations counts match their list lengths (the stored
scores count is not asserted), that min_score ≤ mean_score ≤ max_score and
that the block contains the organization and author text; it fails exactly
when one of those checks fails, and on the module data it succeeds. -/
theorem C2_amended_self_check :
    (∀ st : ModuleState, self_check_run st = true ↔
      (st.ya = st.cy - st.ys ∧ st.csv = st.svc.length ∧ st.clo = st.loc.length ∧
        st.mn ≤ st.me ∧ st.me ≤ st.mx ∧
        strHasSub st.b st.org = true ∧ strHasSub st.b st.auth = true)) ∧
    self_check_run theState = true :=
  ⟨self_check_run_iff, self_check_run_theState⟩

/-- C3 counterexample: a user cancellation signal raised while the speech
engine is running escapes read_byline_aloud, because its handler catches
only exceptions of class Exception and KeyboardInterrupt is not one; the
claim says the interruption never propagates out of the narration path. -/
theorem C3_counterexample : read_byline_aloud true (EngineRun.raises PyExc.keyboardInterrupt) =
    CallResult.raised PyExc.keyboardInterrupt := rfl

/-- C3 amended: a user interrupt during narration propagates out of
read_byline_aloud as KeyboardInterrupt; it is treated as normal termination
only by the surrounding handler in main, which catches KeyboardInterrupt
and continues, while every engine error of class Exception is caught inside
read_byline_aloud itself. -/
theorem C3_amended_interrupt :
    read_byline_aloud true (EngineRun.raises PyExc.keyboardInterrupt) =
      CallResult.raised PyExc.keyboardInterrupt ∧
    main_speech_guard (read_byline_aloud true (EngineRun.raises PyExc.keyboardInterrupt)) =
      CallResult.returned false ∧
    (∀ t : Bool, read_byline_aloud t (EngineRun.raises PyExc.exception) ≠
      CallResult.raised PyExc.exception) := by
  refine ⟨rfl, rfl, ?_⟩
  intro t
  cases t
  · decide
  · decide

/-- C4: for every score sequence with fewer than two elements the sample
standard deviation computation fails with the StatisticsError that models
the DomainError of the spec, rather than returning a value. -/
theorem C4_stdev_short_input (xs : List ℚ) (h : xs.length < 2) :
    stdevE xs = Except.error "StatisticsError" := by
  unfold stdevE
  rw [if_pos h]

/-- C4 witness: the single-element sequence has length below two and the
computation fails on it. -/
theorem C4_witness : [(4.8 : ℚ)].length < 2 ∧
    stdevE [(4.8 : ℚ)] = Except.error "StatisticsError" :=
  ⟨by decide, C4_stdev_short_input [(4.8 : ℚ)] (by decide)⟩

/-- C5: for every score sequence of length at least two, the derived
statistics satisfy min ≤ mean ≤ max, and the sample standard deviation is
nonnegative. -/
theorem C5_stats_bounds (xs : List ℚ) (h : 2 ≤ xs.length) :
    listMin xs ≤ meanQ xs ∧ meanQ xs ≤ listMax xs ∧ 0 ≤ stdevOf xs := by
  have h0 : 0 < xs.length := lt_of_lt_of_le (by norm_num) h
  have hl : (0 : ℚ) < (xs.length : ℚ) := by exact_mod_cast h0
  refine ⟨?_, ?_, Real.sqrt_nonneg _⟩
  · rw [meanQ, le_div_iff₀ hl]
    exact mul_length_le_sum _ _ (listMin_le_mem xs)
  · rw [meanQ, div_le_iff₀ hl]
    exact sum_le_mul_length _ _ (mem_le_listMax xs)

/-- C5 witness: the module score list has length at least two and satisfies
the bounds. -/
theorem C5_witness : 2 ≤ satisfaction_scores.length ∧
    (listMin satisfaction_scores ≤ meanQ satisfaction_scores ∧
      meanQ satisfaction_scores ≤ listMax satisfaction_scores ∧
      0 ≤ stdevOf satisfaction_scores) :=
  ⟨by decide, C5_stats_bounds satisfaction_scores (by decide)⟩

/-- C6: the derived years-active value equals currentYear minus yearStarted
for arbitrary year fields, and on the module data (2025 and 2020) it equals
5. -/
theorem C6_years_active : (∀ cy ys : ℤ, yearsActiveOf cy ys = cy - ys) ∧
    years_active = yearsActiveOf current_year year_started ∧
    current_year = 2025 ∧ year_started = 2020 ∧ years_active = 5 :=
  ⟨fun _ _ => rfl, rfl, rfl, rfl, by decide⟩

/-- C7: get_byline and compose_byline are the same pure accessor: both
return the previously formatted module byline, so any two calls yield the
byte-identical string. -/
theorem C7_accessors : get_byline = compose_byline ∧ get_byline = byline ∧
    compose_byline = byline :=
  ⟨rfl, rfl, rfl⟩

/-- C8: the formatted block contains the organization and author strings as
substrings, and each count rendered in parentheses (office locations,
services, satisfaction scores) is the stored count, which equals the actual
length of the corresponding list. -/
theorem C8_block_contents : strHasSub byline organization = true ∧
    strHasSub byline author = true ∧
    strHasSub byline ("Office Locations (" ++ toString count_of_locations ++ ")") = true ∧
    strHasSub byline ("Services (" ++ toString count_of_services ++ ")") = true ∧
    strHasSub byline ("Client Satisfaction Scores (" ++ toString count_of_scores ++ ")") = true ∧
    count_of_locations = office_locations.length ∧
    count_of_services = services.length ∧
    count_of_scores = satisfaction_scores.length := by
  rw [byline_eval]
  exact ⟨by decide, by decide, by decide, by decide, by decide, rfl, rfl, rfl⟩

/-- C9: when the speech capability is absent, read_byline_aloud logs a
warning and returns normally, whatever the engine would have done. -/
theorem C9_tts_unavailable : ∀ e : EngineRun, read_byline_aloud false e =
    CallResult.returned true :=
  fun _ => rfl

/-- C10: the byline string has no leading and no trailing newline: its
first and last characters are the border character, because the module
strips newlines from the formatted template. -/
theorem C10_border_chars : byline.data.head? = some '*' ∧
    byline.data.getLast? = some '*' := by
  rw [byline_eval]
  exact ⟨by decide, by decide⟩

end Utils
